import Mathlib

/-!
Wallet ledger: shallow embedding and verification.

A shallow embedding of the wallet / transaction ledger of the `next_backend`
Django application, together with proofs about its operations.

Modelling conventions:

* Money amounts (`DecimalField(decimal_places=2)`) are embedded as `Int`,
  understood as a fixed-point quantity; addition, subtraction and comparison
  of Python `Decimal` values correspond exactly to the `Int` operations.
* Database state is a `LedgerState`: the list of wallet rows and the list of
  transaction rows.  A Django `save()` of a fetched row is an update of the
  row with the same primary key; `objects.create` appends a row.
* Randomness (the `uuid4` suffix of generated references, the random part of
  a regenerated wallet id) is passed in as an explicit argument.
* `transaction.atomic()` blocks are single Lean functions: the whole update
  is one pure state transformation, so atomicity is inherent in the model.
-/

/-- Metadata bag (`JSONField`): embedded as an association list. -/
abbrev MetaMap := List (String × String)

/-- A `Wallet` row (`wallet/models.py`).  `id` is the database primary key;
`walletId` is the external `wallet_id` string. -/
structure Wallet where
  id : Nat
  user : Nat
  walletId : String
  balance : Int
  virtualAccountNumber : Option String
  virtualBankName : Option String
  virtualAccountReference : Option String
  isActive : Bool
  deriving DecidableEq, Repr

/-- A `Transaction` row (`wallet/models.py`).  `walletRef` is the foreign key
to the owning wallet's primary key; `recipientWallet` is the nullable foreign
key used by transfers.  `transactionType` and `status` are the raw strings the
code stores. -/
structure Txn where
  walletRef : Nat
  amount : Int
  transactionType : String
  status : String
  reference : String
  recipientWallet : Option Nat
  metadata : MetaMap
  deriving DecidableEq, Repr

/-- The persisted ledger: wallet rows and transaction rows. -/
structure LedgerState where
  wallets : List Wallet
  transactions : List Txn
  deriving DecidableEq, Repr

/-- Embeds `wallet.save()` on an already-fetched row: the row with the same primary
key is replaced.  (Embeds the Django UPDATE-by-pk semantics.) -/
def updateWallet (ws : List Wallet) (w : Wallet) : List Wallet :=
  ws.map (fun x => if x.id = w.id then w else x)

/-- Embeds `Wallet.objects.get(wallet_id=...)`: look a wallet up by its external id. -/
def findWalletByExternalId (s : LedgerState) (wid : String) : Option Wallet :=
  s.wallets.find? (fun x => x.walletId = wid)

/-- The balance currently stored for the wallet with primary key `i`. -/
def balanceOf (s : LedgerState) (i : Nat) : Option Int :=
  (s.wallets.find? (fun x => x.id = i)).map Wallet.balance

/-- Embeds `Wallet.save` (`wallet/models.py`): if `wallet_id` is falsy a fresh one is
generated before the row is written.  The fresh id is passed in as `freshWid`. -/
def Wallet.save (w : Wallet) (freshWid : String) : Wallet :=
  if w.walletId = "" then { w with walletId := freshWid } else w

/-- Signed effect of one transaction row on the wallet with primary key `wid`,
as the specification defines it: deposit `+amount`; incoming transfer credit
`+amount`; withdrawal, VAS purchase and outgoing transfer debit `-amount`.
A transfer row is a credit exactly when its `recipientWallet` is the owning
wallet itself. -/
def signedEffect (wid : Nat) (t : Txn) : Int :=
  if t.walletRef = wid then
    if t.transactionType = "DEPOSIT" then t.amount
    else if t.transactionType = "TRANSFER" then
      (if t.recipientWallet = some wid then t.amount else -t.amount)
    else -t.amount
  else 0

/-- Sum of signed effects of the transactions with status `COMPLETED`, for the
wallet with primary key `wid` (the specification's balance invariant). -/
def completedSum (ts : List Txn) (wid : Nat) : Int :=
  (ts.filter (fun t => t.status = "COMPLETED")).foldl
    (fun acc t => acc + signedEffect wid t) 0

namespace TransactionService

/-- Embeds `TransactionService.generate_reference`
(`wallet/services/transactions.py`): the reference is the tag, a dash, and a
random 8-character suffix; the random part (`uuid4().hex[:8].upper()`) is
passed in as `suffix`. -/
def generate_reference (pfx : String) (suffix : String) : String :=
  pfx ++ "-" ++ suffix

/-- Embeds `TransactionService.create_deposit` (`wallet/services/transactions.py`).
If `reference` is falsy (absent or empty) a `DEP` reference is generated.
Inside one atomic block: a transaction row with type `DEPOSIT` and status
`SUCCESS` is created, and the wallet balance is increased by `amount` and
saved.  There is no validation of `amount`. -/
def create_deposit (s : LedgerState) (w : Wallet) (amount : Int)
    (reference : Option String) (freshSuffix : String) (freshWid : String)
    (metadata : Option MetaMap) : LedgerState × Txn :=
  let ref := match reference with
    | none => generate_reference "DEP" freshSuffix
    | some r => if r = "" then generate_reference "DEP" freshSuffix else r
  let txn : Txn :=
    { walletRef := w.id, amount := amount, transactionType := "DEPOSIT",
      status := "SUCCESS", reference := ref, recipientWallet := none,
      metadata := metadata.getD [] }
  let w2 := Wallet.save { w with balance := w.balance + amount } freshWid
  ({ wallets := updateWallet s.wallets w2,
     transactions := s.transactions ++ [txn] }, txn)

/-- Embeds `TransactionService.create_vas_transaction`
(`wallet/services/transactions.py`).  The reference tag is the first three
characters of `service_type`, uppercased.  Inside one atomic block: a
transaction row with type `service_type` and status `SUCCESS` is created, and
the wallet balance is decreased by `amount` and saved.  There is no balance
check in this function. -/
def create_vas_transaction (s : LedgerState) (w : Wallet) (amount : Int)
    (service_type : String) (freshSuffix : String) (freshWid : String)
    (metadata : MetaMap) : LedgerState × Txn :=
  let ref := generate_reference (service_type.take 3).toUpper freshSuffix
  let txn : Txn :=
    { walletRef := w.id, amount := amount, transactionType := service_type,
      status := "SUCCESS", reference := ref, recipientWallet := none,
      metadata := metadata }
  let w2 := Wallet.save { w with balance := w.balance - amount } freshWid
  ({ wallets := updateWallet s.wallets w2,
     transactions := s.transactions ++ [txn] }, txn)

/-- Errors of the transaction service, from the specification's error
taxonomy (§7). -/
inductive WalletError where
  | InvalidAmount
  | InsufficientFunds
  | SelfTransfer
  | InvalidStateTransition
  deriving DecidableEq, Repr

/-- Modelled from the spec: `TransactionService.create_withdrawal` is called
from `WithdrawalView.post` but is not among the source files.  Spec §4.3:
preconditions `amount > 0` and `wallet.balance >= amount` (insufficient funds
fails with `InsufficientFunds`, no transaction is created); on success a
PENDING `WITHDRAWAL` transaction with a generated `WDR` reference is created
and the balance is *not* decremented. -/
def create_withdrawal (s : LedgerState) (w : Wallet) (amount : Int)
    (freshSuffix : String) (metadata : MetaMap) :
    Except WalletError (LedgerState × Txn) :=
  if w.balance < amount then .error .InsufficientFunds
  else if amount ≤ 0 then .error .InvalidAmount
  else
    let txn : Txn :=
      { walletRef := w.id, amount := amount, transactionType := "WITHDRAWAL",
        status := "PENDING", reference := generate_reference "WDR" freshSuffix,
        recipientWallet := none, metadata := metadata }
    .ok ({ s with transactions := s.transactions ++ [txn] }, txn)

/-- Modelled from the spec: `TransactionService.complete_withdrawal` is called
from `WithdrawalView.post` but is not among the source files.  Spec §4.3:
transitions PENDING→COMPLETED and decrements the balance by the transaction's
amount, atomically; calling on a non-PENDING transaction fails with
`InvalidStateTransition`.  The transaction is addressed by its reference. -/
def complete_withdrawal (s : LedgerState) (ref : String) :
    Except WalletError LedgerState :=
  match s.transactions.find? (fun t => t.reference = ref) with
  | none => .error .InvalidStateTransition
  | some t =>
    if t.status = "PENDING" then
      .ok { wallets := (s.wallets.map (fun x =>
              if x.id = t.walletRef then { x with balance := x.balance - t.amount }
              else x)),
            transactions := s.transactions.map (fun u =>
              if u.reference = ref then { u with status := "COMPLETED" } else u) }
    else .error .InvalidStateTransition

/-- Modelled from the spec: `TransactionService.fail_withdrawal` is called
from `WithdrawalView.post` but is not among the source files.  Spec §4.3:
transitions PENDING→FAILED, records the reason in metadata, balance
unaffected. -/
def fail_withdrawal (s : LedgerState) (ref : String) (reason : String) :
    Except WalletError LedgerState :=
  match s.transactions.find? (fun t => t.reference = ref) with
  | none => .error .InvalidStateTransition
  | some t =>
    if t.status = "PENDING" then
      .ok { s with transactions := s.transactions.map (fun u =>
              if u.reference = ref then
                { u with status := "FAILED",
                         metadata := u.metadata ++ [("failure_reason", reason)] }
              else u) }
    else .error .InvalidStateTransition

/-- Modelled from the spec: `TransactionService.create_transfer` is called
from `TransferView.post` but is not among the source files.  Spec §4.3:
preconditions sender ≠ recipient (`SelfTransfer`), `amount > 0`
(`InvalidAmount`), `sender.balance >= amount` (`InsufficientFunds`);
atomically, in one unit, a COMPLETED `TRANSFER` debit row is created on the
sender (balance `-amount`) and a COMPLETED `TRANSFER` credit row on the
recipient (balance `+amount`); both rows carry the same amount and reference
the recipient wallet. -/
def create_transfer (s : LedgerState) (sender recipient : Wallet)
    (amount : Int) (sufOut sufIn : String) (metadata : MetaMap) :
    Except WalletError (LedgerState × Txn × Txn) :=
  if sender.id = recipient.id then .error .SelfTransfer
  else if amount ≤ 0 then .error .InvalidAmount
  else if sender.balance < amount then .error .InsufficientFunds
  else
    let outgoing : Txn :=
      { walletRef := sender.id, amount := amount,
        transactionType := "TRANSFER", status := "COMPLETED",
        reference := generate_reference "TRF" sufOut,
        recipientWallet := some recipient.id, metadata := metadata }
    let incoming : Txn :=
      { walletRef := recipient.id, amount := amount,
        transactionType := "TRANSFER", status := "COMPLETED",
        reference := generate_reference "TRF" sufIn,
        recipientWallet := some recipient.id, metadata := metadata }
    let ws := updateWallet
      (updateWallet s.wallets { sender with balance := sender.balance - amount })
      { recipient with balance := recipient.balance + amount }
    .ok ({ wallets := ws,
           transactions := s.transactions ++ [outgoing, incoming] },
         outgoing, incoming)

end TransactionService

namespace Sha256

/-- Truncate to a 32-bit word. -/
def w32 (n : Nat) : Nat := n % 4294967296

/-- Right rotation of a 32-bit word. -/
def rotr (x n : Nat) : Nat := w32 ((x >>> n) ||| (x <<< (32 - n)))

/-- Bitwise complement of a 32-bit word. -/
def compl32 (x : Nat) : Nat := x ^^^ 4294967295

/-- Choice function of the SHA-256 round. -/
def ch (x y z : Nat) : Nat := (x &&& y) ^^^ (compl32 x &&& z)

/-- Majority function of the SHA-256 round. -/
def maj (x y z : Nat) : Nat := (x &&& y) ^^^ ((x &&& z) ^^^ (y &&& z))

/-- Upper-case sigma-0 of SHA-256. -/
def bigSigma0 (x : Nat) : Nat := (rotr x 2) ^^^ ((rotr x 13) ^^^ (rotr x 22))

/-- Upper-case sigma-1 of SHA-256. -/
def bigSigma1 (x : Nat) : Nat := (rotr x 6) ^^^ ((rotr x 11) ^^^ (rotr x 25))

/-- Lower-case sigma-0 of SHA-256. -/
def smallSigma0 (x : Nat) : Nat := (rotr x 7) ^^^ ((rotr x 18) ^^^ (x >>> 3))

/-- Lower-case sigma-1 of SHA-256. -/
def smallSigma1 (x : Nat) : Nat := (rotr x 17) ^^^ ((rotr x 19) ^^^ (x >>> 10))

/-- The 64 round constants of FIPS 180-4, written in decimal. -/
def roundK : List Nat :=
  [1116352408, 1899447441, 3049323471, 3921009573, 961987163,
   1508970993, 2453635748, 2870763221, 3624381080, 310598401,
   607225278, 1426881987, 1925078388, 2162078206, 2614888103,
   3248222580, 3835390401, 4022224774, 264347078, 604807628,
   770255983, 1249150122, 1555081692, 1996064986, 2554220882,
   2821834349, 2952996808, 3210313671, 3336571891, 3584528711,
   113926993, 338241895, 666307205, 773529912, 1294757372,
   1396182291, 1695183700, 1986661051, 2177026350, 2456956037,
   2730485921, 2820302411, 3259730800, 3345764771, 3516065817,
   3600352804, 4094571909, 275423344, 430227734, 506948616,
   659060556, 883997877, 958139571, 1322822218, 1537002063,
   1747873779, 1955562222, 2024104815, 2227730452, 2361852424,
   2428436474, 2756734187, 3204031479, 3329325298]

/-- The initial hash value of FIPS 180-4, written in decimal. -/
def initH : List Nat :=
  [1779033703, 3144134277, 1013904242,
   2773480762, 1359893119, 2600822924,
   528734635, 1541459225]

/-- Big-endian encoding of `x` into `k` bytes. -/
def toBytesBE : Nat → Nat → List Nat
  | 0, _ => []
  | k + 1, x => toBytesBE k (x / 256) ++ [x % 256]

/-- Group bytes into big-endian 32-bit words. -/
def bytesToWords : List Nat → List Nat
  | b0 :: b1 :: b2 :: b3 :: rest =>
      (((b0 * 256 + b1) * 256 + b2) * 256 + b3) :: bytesToWords rest
  | _ => []

/-- Extend the 16-word message schedule by `n` further words. -/
def extendSchedule : Nat → List Nat → List Nat
  | 0, acc => acc
  | n + 1, acc =>
    let len := acc.length
    let t := w32 (smallSigma1 (acc.getD (len - 2) 0) + acc.getD (len - 7) 0 +
                  smallSigma0 (acc.getD (len - 15) 0) + acc.getD (len - 16) 0)
    extendSchedule n (acc ++ [t])

/-- One SHA-256 compression round on the eight-word working state. -/
def round (st : List Nat) (k wt : Nat) : List Nat :=
  match st with
  | [a, b, c, d, e, f, g, h] =>
    let t1 := w32 (h + bigSigma1 e + ch e f g + k + wt)
    let t2 := w32 (bigSigma0 a + maj a b c)
    [w32 (t1 + t2), a, b, c, w32 (d + t1), e, f, g]
  | other => other

/-- Compress one 64-byte block into the running hash value. -/
def compressBlock (h : List Nat) (block : List Nat) : List Nat :=
  let ws := extendSchedule 48 (bytesToWords block)
  let fin := (roundK.zip ws).foldl (fun st kw => round st kw.1 kw.2) h
  (h.zip fin).map (fun p => w32 (p.1 + p.2))

/-- SHA-256 padding: append `0x80`, zeros, and the 64-bit big-endian bit
length, reaching a multiple of 64 bytes. -/
def padMessage (msg : List Nat) : List Nat :=
  let padZeros := (119 - (msg.length % 64)) % 64
  msg ++ [0x80] ++ List.replicate padZeros 0 ++ toBytesBE 8 (msg.length * 8)

/-- Split into 64-byte chunks (fuel-driven; the fuel is the list length). -/
def chunks64 : Nat → List Nat → List (List Nat)
  | 0, _ => []
  | _, [] => []
  | fuel + 1, l => l.take 64 :: chunks64 fuel (l.drop 64)

/-- SHA-256 of a byte list, as a 32-byte list (embeds `hashlib.sha256`;
validated against the FIPS 180-4 test vectors). -/
def sha256 (msg : List Nat) : List Nat :=
  let padded := padMessage msg
  let fin := (chunks64 padded.length padded).foldl compressBlock initH
  fin.foldr (fun w acc => toBytesBE 4 w ++ acc) []

/-- HMAC-SHA256 of a message under a key (embeds
`hmac.new(key, payload, hashlib.sha256)`, RFC 2104). -/
def hmacSha256 (key msg : List Nat) : List Nat :=
  let kh := if key.length > 64 then sha256 key else key
  let k0 := kh ++ List.replicate (64 - kh.length) 0
  let ipad := k0.map (fun b => b ^^^ 0x36)
  let opad := k0.map (fun b => b ^^^ 0x5c)
  sha256 (opad ++ sha256 (ipad ++ msg))

/-- One lowercase hexadecimal digit. -/
def hexChar (n : Nat) : Char :=
  if n < 10 then Char.ofNat (48 + n) else Char.ofNat (87 + n)

/-- Lowercase hexadecimal rendering of a byte list (embeds `.hexdigest()`). -/
def bytesToHex (bs : List Nat) : String :=
  String.mk (bs.foldr (fun b acc => hexChar (b / 16) :: hexChar (b % 16) :: acc) [])

end Sha256

/-- Embeds `hmac.compare_digest` on two strings: a constant-time comparison,
semantically equality of the strings. -/
def compare_digest (a b : String) : Bool := a == b

/-- Embeds `verify_webhook_signature` (`wallet/utils.py`): the expected
signature is the lowercase hex HMAC-SHA256 digest of the raw payload bytes
under the configured shared secret
(`settings.PAYSCRIBE_WEBHOOK_SECRET.encode('utf-8')`, passed in as
`secretKey`), compared to the received signature with `hmac.compare_digest`. -/
def verify_webhook_signature (secretKey : List Nat) (payload : List Nat)
    (received_signature : String) : Bool :=
  let expected_signature := Sha256.bytesToHex (Sha256.hmacSha256 secretKey payload)
  compare_digest expected_signature received_signature

/-- The fields `DepositWebhookSerializer` extracts from a decoded webhook
body. -/
structure WebhookData where
  reference : String
  amount : Int
  wallet_id : String
  deriving DecidableEq, Repr

namespace DepositWebhookView

/-- Embeds `DepositWebhookView.post` (`wallet/views.py`).  The raw request
body is verified first; an invalid signature is answered with HTTP 403 before
any ledger access.  JSON decoding and serializer validation belong to the
excluded HTTP marshalling layer, so their outcome on the raw body is passed
in as `parsed` (`none` when decoding or validation fails, answered with 400).
An unknown `wallet_id` is answered with 404; otherwise
`TransactionService.create_deposit` runs with the payload's reference and
amount.  Returns the new ledger state and the HTTP status code. -/
def post (secretKey : List Nat) (s : LedgerState) (rawBody : List Nat)
    (receivedSig : String) (parsed : Option WebhookData)
    (freshSuffix freshWid : String) : LedgerState × Nat :=
  if verify_webhook_signature secretKey rawBody receivedSig then
    match parsed with
    | none => (s, 400)
    | some d =>
      match findWalletByExternalId s d.wallet_id with
      | none => (s, 404)
      | some w =>
        let r := TransactionService.create_deposit s w d.amount
          (some d.reference) freshSuffix freshWid
          (some [("source", "virtual_account")])
        (r.fst, 200)
  else (s, 403)

end DepositWebhookView

/-- A JSON value in a provider request payload. -/
inductive PValue where
  | str (s : String)
  | int (n : Int)
  | bool (b : Bool)
  deriving DecidableEq, Repr

/-- A provider request payload: a JSON object. -/
abbrev Payload := List (String × PValue)

/-- Outcome of the underlying `requests.post` transport call.  The provider
is an external collaborator, so the outcome is passed in as an argument:
`success` is a 2xx response with the given JSON body; `httpError` is a non-2xx
response (`raise_for_status` raises `HTTPError`, a `RequestException`, with
message `msg`); `transportError` is a network/transport-level
`RequestException` with message `msg`. -/
inductive HttpOutcome where
  | success (body : String)
  | httpError (code : Nat) (msg : String)
  | transportError (msg : String)
  deriving DecidableEq, Repr

/-- Bank details of a withdrawal request. -/
structure BankDetails where
  bank_code : String
  account_number : String
  account_name : String
  deriving DecidableEq, Repr

namespace PayscribeService

/-- Embeds `PayscribeService._make_request` (`wallet/services/payscribe.py`):
posts the payload to the endpoint; any `requests.exceptions.RequestException`
(transport failure, or the `HTTPError` of `raise_for_status`) is caught and
returned as `(False, str(e))`; otherwise `(True, response.json())` is
returned.  No exception escapes to the caller. -/
def make_request (endpoint : String) (payload : Payload)
    (outcome : HttpOutcome) : Bool × String :=
  match endpoint, payload, outcome with
  | _, _, .success body => (true, body)
  | _, _, .httpError _ msg => (false, msg)
  | _, _, .transportError msg => (false, msg)

/-- Embeds `PayscribeService.create_virtual_account`. -/
def create_virtual_account (user_email wallet_id : String)
    (outcome : HttpOutcome) : Bool × String :=
  make_request "/virtual-accounts"
    [("customer_email", .str user_email), ("wallet_id", .str wallet_id),
     ("is_permanent", .bool true)] outcome

/-- Embeds `PayscribeService.process_withdrawal`. -/
def process_withdrawal (amount : Int) (bank_details : BankDetails)
    (reference narration : String) (outcome : HttpOutcome) : Bool × String :=
  make_request "/payouts/bank"
    [("amount", .int amount), ("bank_code", .str bank_details.bank_code),
     ("account_number", .str bank_details.account_number),
     ("account_name", .str bank_details.account_name),
     ("reference", .str reference), ("narration", .str narration)] outcome

/-- Embeds `PayscribeService.buy_airtime`. -/
def buy_airtime (phone : String) (amount : Int) (network : String)
    (outcome : HttpOutcome) : Bool × String :=
  make_request "/vas/airtime"
    [("phone_number", .str phone), ("amount", .int amount),
     ("network", .str network.toUpper)] outcome

/-- Embeds `PayscribeService.buy_data`. -/
def buy_data (phone plan_code network : String)
    (outcome : HttpOutcome) : Bool × String :=
  make_request "/vas/data"
    [("phone_number", .str phone), ("plan_code", .str plan_code),
     ("network", .str network.toUpper)] outcome

end PayscribeService

namespace AirtimeView

/-- Embeds `AirtimeView.post` (`wallet/views.py`): answers HTTP 400 when
`wallet.balance < amount`; otherwise calls `PayscribeService.buy_airtime`
and, only on provider success, records the VAS transaction (which debits the
balance) and answers 200.  A failed provider call is answered with 400 and no
ledger access.  Returns the new ledger state and the HTTP status code. -/
def post (s : LedgerState) (w : Wallet) (phone : String) (amount : Int)
    (network : String) (outcome : HttpOutcome)
    (freshSuffix freshWid : String) : LedgerState × Nat :=
  if w.balance < amount then (s, 400)
  else
    let r := PayscribeService.buy_airtime phone amount network outcome
    if r.fst then
      ((TransactionService.create_vas_transaction s w amount "AIRTIME"
          freshSuffix freshWid
          [("phone", phone), ("network", network),
           ("payscribe_response", r.snd)]).fst, 200)
    else (s, 400)

end AirtimeView

namespace DataView

/-- Embeds `DataView.post` (`wallet/views.py`): answers HTTP 400 when
`wallet.balance < amount`; otherwise calls `PayscribeService.buy_data` and,
only on provider success, records the VAS transaction (which debits the
balance) and answers 200.  Returns the new ledger state and the HTTP status
code. -/
def post (s : LedgerState) (w : Wallet) (phone plan_code network : String)
    (amount : Int) (outcome : HttpOutcome)
    (freshSuffix freshWid : String) : LedgerState × Nat :=
  if w.balance < amount then (s, 400)
  else
    let r := PayscribeService.buy_data phone plan_code network outcome
    if r.fst then
      ((TransactionService.create_vas_transaction s w amount "DATA"
          freshSuffix freshWid
          [("phone", phone), ("plan", plan_code), ("network", network),
           ("payscribe_response", r.snd)]).fst, 200)
    else (s, 400)

end DataView

/-- Error raised by a rejected wallet delete. -/
inductive DeleteError where
  | ProtectedError
  deriving DecidableEq, Repr

/-- Embeds deletion of a `Wallet` row under the `on_delete` declarations of
`wallet/models.py`: `Transaction.wallet` is `on_delete=models.PROTECT`, so the
delete is rejected with `ProtectedError` while any transaction row references
the wallet as its owner; `Transaction.recipient_wallet` is
`on_delete=models.SET_NULL`, so such references are set to null and do not
block the delete. -/
def deleteWallet (s : LedgerState) (wid : Nat) : Except DeleteError LedgerState :=
  if s.transactions.any (fun t => t.walletRef = wid) then .error .ProtectedError
  else .ok
    { wallets := s.wallets.filter (fun x => x.id ≠ wid),
      transactions := s.transactions.map (fun t =>
        if t.recipientWallet = some wid then { t with recipientWallet := none }
        else t) }

/-- A sample wallet row used to evaluate the operations on concrete inputs. -/
def wA : Wallet :=
  { id := 1, user := 10, walletId := "NEXAAAAA0001", balance := 0,
    virtualAccountNumber := some "0123456789",
    virtualBankName := some "9PSB",
    virtualAccountReference := some "VAREF1", isActive := true }

/-- A second sample wallet row. -/
def wB : Wallet :=
  { id := 2, user := 11, walletId := "NEXABBBB0002", balance := 0,
    virtualAccountNumber := none, virtualBankName := none,
    virtualAccountReference := none, isActive := true }

/-- A sample ledger holding just `wA` and no transactions. -/
def sA : LedgerState := { wallets := [wA], transactions := [] }

/-- A completed transfer debit row owned by `wA` whose `recipient_wallet`
references `wB`. -/
def tTransferAB : Txn :=
  { walletRef := 1, amount := 100, transactionType := "TRANSFER",
    status := "COMPLETED", reference := "TRF-1A2B3C4D",
    recipientWallet := some 2, metadata := [] }

/-- A sample ledger where `wB` is referenced by a transaction only through
`recipient_wallet`. -/
def sC9 : LedgerState := { wallets := [wA, wB], transactions := [tTransferAB] }

/-- C1: the claimed balance invariant `balance = Σ signed effects of
COMPLETED transactions` fails on the code at a one-operation sequence: a
single deposit of 500 into a fresh wallet leaves the stored balance at 500
while the sum over COMPLETED transactions is 0, because `create_deposit`
writes the row with status `SUCCESS` — a value that is not among the
`Transaction.TransactionStatus` choices declared by the model and in
particular is not `COMPLETED`. -/
theorem c1_balance_invariant_fails_on_deposit :
    balanceOf (TransactionService.create_deposit sA wA 500
        (some "DEP-ABC123") "1A2B3C4D" "NEXAFRESH0" none).fst 1 = some 500 ∧
    completedSum (TransactionService.create_deposit sA wA 500
        (some "DEP-ABC123") "1A2B3C4D" "NEXAFRESH0" none).fst.transactions 1 = 0 := by
  decide

/-- C4: `create_deposit` evaluated at the failing input `amount = -500`: no
`InvalidAmount` failure is possible (the function returns unconditionally), a
`DEPOSIT` row is created with status `SUCCESS` rather than `COMPLETED`, and
the balance is driven to `-500`. -/
theorem c4_deposit_accepts_nonpositive_amount :
    (TransactionService.create_deposit sA wA (-500) none "AB12CD34" "NEXAFRESH0" none).snd =
      { walletRef := 1, amount := -500, transactionType := "DEPOSIT",
        status := "SUCCESS", reference := "DEP-AB12CD34",
        recipientWallet := none, metadata := [] } ∧
    balanceOf (TransactionService.create_deposit sA wA (-500) none "AB12CD34" "NEXAFRESH0" none).fst 1 =
      some (-500) := by
  decide

/-- C8: every Payscribe gateway operation returns a `(success, payload)`
pair for every transport outcome (the embedding is a total function into
`Bool × String`), and a network/transport failure of the provider is
absorbed: the call returns `success = false` with the error detail as the
payload, for all four operations. -/
theorem c8_gateway_absorbs_transport_failures (user_email wallet_id : String)
    (amount : Int) (bd : BankDetails)
    (reference narration phone network plan_code m : String) :
    PayscribeService.create_virtual_account user_email wallet_id
      (.transportError m) = (false, m) ∧
    PayscribeService.process_withdrawal amount bd reference narration
      (.transportError m) = (false, m) ∧
    PayscribeService.buy_airtime phone amount network
      (.transportError m) = (false, m) ∧
    PayscribeService.buy_data phone plan_code network
      (.transportError m) = (false, m) :=
  ⟨rfl, rfl, rfl, rfl⟩

/-- C2: a transfer is all-or-nothing.  For every ledger, sender, recipient
and amount, `create_transfer` either returns an error — in which case no row
is created and no balance changes, the caller keeping the original state — or
returns a state holding exactly the two new COMPLETED `TRANSFER` rows with
the same amount, the sender row debited and the recipient row credited, with
the sender balance decreased and the recipient balance increased by that
amount, all produced by the one atomic unit; never exactly one of the two. -/
theorem c2_transfer_atomic (s : LedgerState) (sender recipient : Wallet)
    (amount : Int) (sufOut sufIn : String) (md : MetaMap) :
    (∃ e, TransactionService.create_transfer s sender recipient amount
        sufOut sufIn md = .error e) ∨
    (∃ s1 outT inT,
      TransactionService.create_transfer s sender recipient amount
        sufOut sufIn md = .ok (s1, outT, inT) ∧
      outT.amount = amount ∧ inT.amount = amount ∧
      outT.status = "COMPLETED" ∧ inT.status = "COMPLETED" ∧
      outT.transactionType = "TRANSFER" ∧ inT.transactionType = "TRANSFER" ∧
      outT.walletRef = sender.id ∧ inT.walletRef = recipient.id ∧
      s1.transactions = s.transactions ++ [outT, inT] ∧
      s1.wallets = updateWallet
        (updateWallet s.wallets { sender with balance := sender.balance - amount })
        { recipient with balance := recipient.balance + amount }) := by
  unfold TransactionService.create_transfer
  split
  · exact Or.inl ⟨_, rfl⟩
  · split
    · exact Or.inl ⟨_, rfl⟩
    · split
      · exact Or.inl ⟨_, rfl⟩
      · exact Or.inr ⟨_, _, _, rfl, rfl, rfl, rfl, rfl, rfl, rfl, rfl, rfl, rfl, rfl⟩

/-- C5: behaviour of the (spec-modelled) `create_withdrawal`.  When the
wallet balance is below the amount it fails with `InsufficientFunds` and no
transaction is created (the state is not touched); when the amount is
positive and covered by the balance it creates exactly one PENDING
`WITHDRAWAL` transaction whose reference is generated with the `WDR` tag,
and the wallet balances are left untouched. -/
theorem c5_create_withdrawal_spec (s : LedgerState) (w : Wallet)
    (amount : Int) (suf : String) (md : MetaMap) :
    (w.balance < amount →
      TransactionService.create_withdrawal s w amount suf md =
        .error .InsufficientFunds) ∧
    (0 < amount → amount ≤ w.balance →
      ∃ s1 t, TransactionService.create_withdrawal s w amount suf md =
          .ok (s1, t) ∧
        t.status = "PENDING" ∧ t.transactionType = "WITHDRAWAL" ∧
        t.amount = amount ∧ t.walletRef = w.id ∧
        t.reference = TransactionService.generate_reference "WDR" suf ∧
        s1.wallets = s.wallets ∧
        s1.transactions = s.transactions ++ [t]) := by
  constructor
  · intro h
    unfold TransactionService.create_withdrawal
    rw [if_pos h]
  · intro hpos hcov
    unfold TransactionService.create_withdrawal
    rw [if_neg (by omega), if_neg (by omega)]
    exact ⟨_, _, rfl, rfl, rfl, rfl, rfl, rfl, rfl, rfl⟩

/-- C5 witness: the two regimes of `c5_create_withdrawal_spec` evaluated on
concrete inputs — a withdrawal of 200 from a wallet holding 100 fails with
`InsufficientFunds`, and a withdrawal of 50 from the same wallet produces a
PENDING `WITHDRAWAL` row with a `WDR` reference and untouched balances. -/
theorem c5_create_withdrawal_witness :
    TransactionService.create_withdrawal
      { wallets := [{ wA with balance := 100 }], transactions := [] }
      { wA with balance := 100 } 200 "9Z8Y7X6W" [] =
      .error .InsufficientFunds ∧
    (∃ s1 t, TransactionService.create_withdrawal
        { wallets := [{ wA with balance := 100 }], transactions := [] }
        { wA with balance := 100 } 50 "9Z8Y7X6W" [] = .ok (s1, t) ∧
      t.status = "PENDING" ∧ t.transactionType = "WITHDRAWAL" ∧
      t.amount = 50 ∧ t.walletRef = wA.id ∧
      t.reference = TransactionService.generate_reference "WDR" "9Z8Y7X6W" ∧
      s1.wallets = [{ wA with balance := 100 }] ∧
      s1.transactions = [] ++ [t]) :=
  ⟨(c5_create_withdrawal_spec _ _ 200 _ _).1 (by decide),
   (c5_create_withdrawal_spec _ _ 50 _ _).2 (by decide) (by decide)⟩

/-- C3: no overdraft.  When the requested amount exceeds the wallet's balance
at evaluation time, the airtime and data views answer 400 leaving the ledger
untouched (no transaction row of any status is created and no balance moves,
so in particular the balance cannot be driven below zero), the (spec-modelled)
`create_withdrawal` fails with `InsufficientFunds`, and the (spec-modelled)
`create_transfer` returns an error — none of them creates a COMPLETED or
PENDING debiting record. -/
theorem c3_no_overdraft (s : LedgerState) (w recipient : Wallet)
    (amount : Int) (phone network plan_code sufV fw suf sufOut sufIn : String)
    (outcome : HttpOutcome) (md : MetaMap)
    (h : w.balance < amount) :
    AirtimeView.post s w phone amount network outcome sufV fw = (s, 400) ∧
    DataView.post s w phone plan_code network amount outcome sufV fw = (s, 400) ∧
    TransactionService.create_withdrawal s w amount suf md =
      .error .InsufficientFunds ∧
    (∃ e, TransactionService.create_transfer s w recipient amount
        sufOut sufIn md = .error e) := by
  refine ⟨?_, ?_, ?_, ?_⟩
  · unfold AirtimeView.post
    rw [if_pos h]
  · unfold DataView.post
    rw [if_pos h]
  · unfold TransactionService.create_withdrawal
    rw [if_pos h]
  · unfold TransactionService.create_transfer
    split_ifs with h1 h2
    · exact ⟨_, rfl⟩
    · exact ⟨_, rfl⟩
    · exact ⟨_, rfl⟩

/-- C3 witness: the overdraft guard evaluated on a concrete input — a request
for 100 against a wallet holding 0 is rejected by all four debiting
operations, the ledger staying as it was. -/
theorem c3_no_overdraft_witness :
    wA.balance < 100 ∧
    (AirtimeView.post sA wA "08031234567" 100 "mtn" (.success "ok") "1A2B3C4D" "NEXAF1" = (sA, 400) ∧
     DataView.post sA wA "08031234567" "PLAN1" "mtn" 100 (.success "ok") "1A2B3C4D" "NEXAF1" = (sA, 400) ∧
     TransactionService.create_withdrawal sA wA 100 "9Z8Y7X6W" [] =
       .error .InsufficientFunds ∧
     (∃ e, TransactionService.create_transfer sA wA wB 100 "5E6F7A8B" "5E6F7A8C" [] =
       .error e)) :=
  ⟨by decide,
   c3_no_overdraft sA wA wB 100 "08031234567" "mtn" "PLAN1" "1A2B3C4D" "NEXAF1"
     "9Z8Y7X6W" "5E6F7A8B" "5E6F7A8C" (.success "ok") [] (by decide)⟩

/-- C6: a webhook request whose signature fails verification is answered
with HTTP 403 and performs no ledger mutation whatsoever: the returned state
is the input state, so no transaction row is created and no balance changes,
regardless of what the body would have parsed to. -/
theorem c6_webhook_rejects_invalid_signature (secretKey : List Nat)
    (s : LedgerState) (rawBody : List Nat) (sig : String)
    (parsed : Option WebhookData) (sufx fw : String)
    (h : verify_webhook_signature secretKey rawBody sig = false) :
    DepositWebhookView.post secretKey s rawBody sig parsed sufx fw = (s, 403) := by
  unfold DepositWebhookView.post
  rw [h]
  rfl

set_option maxRecDepth 10000 in
/-- C6 witness: with secret key bytes of the string `key` and raw body bytes
of `abc`, the empty received signature fails verification (the expected
signature is a 64-character hex digest), and the webhook handler answers 403
leaving the sample ledger untouched. -/
theorem c6_webhook_witness :
    verify_webhook_signature [107, 101, 121] [97, 98, 99] "" = false ∧
    DepositWebhookView.post [107, 101, 121] sA [97, 98, 99] "" none "1A2B3C4D" "NEXAF1" =
      (sA, 403) :=
  ⟨by decide,
   c6_webhook_rejects_invalid_signature [107, 101, 121] sA [97, 98, 99] ""
     none "1A2B3C4D" "NEXAF1" (by decide)⟩

/-- C7: `verify_webhook_signature` returns true exactly when the received
signature equals the lowercase hexadecimal HMAC-SHA256 digest of the raw
payload bytes under the configured shared secret.  The digest is computed
directly on the raw byte list — no JSON decoding is involved in
`verify_webhook_signature` (the webhook handler decodes only after this check,
see `DepositWebhookView.post`). -/
theorem c7_verify_signature_iff (secretKey payload : List Nat) (sig : String) :
    verify_webhook_signature secretKey payload sig = true ↔
    sig = Sha256.bytesToHex (Sha256.hmacSha256 secretKey payload) := by
  unfold verify_webhook_signature compare_digest
  constructor
  · intro hb
    exact (eq_of_beq hb).symm
  · intro he
    exact beq_iff_eq.mpr he.symm

/-- The transaction `tTransferAB` with its `recipient_wallet` reference
nulled. -/
def tTransferABNulled : Txn :=
  { walletRef := 1, amount := 100, transactionType := "TRANSFER",
    status := "COMPLETED", reference := "TRF-1A2B3C4D",
    recipientWallet := none, metadata := [] }

/-- C9 counterexample: wallet `wB` (primary key 2) is referenced by the
transaction `tTransferAB` through `recipient_wallet`, yet deleting it is not
rejected: the delete succeeds and moreover mutates the referencing
transaction by nulling its `recipient_wallet` — refuting the claim that
deleting any wallet referenced by a transaction is rejected with the
referencing transactions left unchanged. -/
theorem c9_delete_counterexample :
    deleteWallet sC9 2 =
      .ok { wallets := [wA], transactions := [tTransferABNulled] } ∧
    tTransferABNulled ≠ tTransferAB :=
  ⟨rfl, by decide⟩

/-- C9 (amended): deleting a wallet that is the owning wallet of at least one
transaction is rejected (`on_delete=PROTECT`) and the ledger is untouched;
deleting a wallet that owns no transaction succeeds even when transactions
reference it as `recipient_wallet`, those references being set to null
(`on_delete=SET_NULL`) while the rows otherwise survive. -/
theorem c9_amended_delete_protection (s : LedgerState) (wid : Nat) :
    ((∃ t ∈ s.transactions, t.walletRef = wid) →
      deleteWallet s wid = .error .ProtectedError) ∧
    ((∀ t ∈ s.transactions, t.walletRef ≠ wid) →
      deleteWallet s wid = .ok
        { wallets := s.wallets.filter (fun x => x.id ≠ wid),
          transactions := s.transactions.map (fun t =>
            if t.recipientWallet = some wid then
              { t with recipientWallet := none }
            else t) }) := by
  constructor
  · rintro ⟨t, ht, hw⟩
    unfold deleteWallet
    rw [if_pos (List.any_eq_true.mpr ⟨t, ht, by simp [hw]⟩)]
  · intro h
    unfold deleteWallet
    rw [if_neg (by
      intro hc
      rcases List.any_eq_true.mp hc with ⟨t, ht, hw⟩
      exact h t ht (by simpa using hw))]

/-- C9 witness: the amended statement evaluated on the sample ledger —
deleting wallet 1 (owner of `tTransferAB`) is rejected with
`ProtectedError`, while deleting wallet 2 (referenced only as recipient)
succeeds with the reference nulled. -/
theorem c9_amended_witness :
    deleteWallet sC9 1 = .error .ProtectedError ∧
    deleteWallet sC9 2 = .ok
      { wallets := sC9.wallets.filter (fun x => x.id ≠ 2),
        transactions := sC9.transactions.map (fun t =>
          if t.recipientWallet = some 2 then { t with recipientWallet := none }
          else t) } :=
  ⟨(c9_amended_delete_protection sC9 1).1 ⟨tTransferAB, by decide, by decide⟩,
   (c9_amended_delete_protection sC9 2).2 (by decide)⟩

/-- C10: frame property of the two source ledger writers.  Provided the
wallet's external id is non-empty (true of every persisted wallet, since
`Wallet.save` generates one on first save), `create_deposit` and
`create_vas_transaction` rewrite the wallet list to exactly the original list
with the target row's balance adjusted: wallet_id, is_active, the
virtual-account binding fields and the owning user of the target row are
carried over unchanged, and every other wallet row is untouched. -/
theorem c10_frame (s : LedgerState) (w : Wallet) (amount : Int)
    (reference : Option String) (sufD sufV fw : String)
    (mdD : Option MetaMap) (mdV : MetaMap) (service_type : String)
    (h : w.walletId ≠ "") :
    (TransactionService.create_deposit s w amount reference sufD fw mdD).fst.wallets =
      s.wallets.map (fun x =>
        if x.id = w.id then { w with balance := w.balance + amount } else x) ∧
    (TransactionService.create_vas_transaction s w amount service_type sufV fw mdV).fst.wallets =
      s.wallets.map (fun x =>
        if x.id = w.id then { w with balance := w.balance - amount } else x) := by
  constructor
  · unfold TransactionService.create_deposit
    simp [Wallet.save, updateWallet, h]
  · unfold TransactionService.create_vas_transaction
    simp [Wallet.save, updateWallet, h]

/-- C10 witness: the frame property evaluated on the sample ledger — a
deposit of 500 and an airtime purchase of 200 each touch only `wA`'s
balance. -/
theorem c10_frame_witness :
    wA.walletId ≠ "" ∧
    (TransactionService.create_deposit sA wA 500 none "1A2B3C4D" "NEXAF1" none).fst.wallets =
      sA.wallets.map (fun x =>
        if x.id = wA.id then { wA with balance := wA.balance + 500 } else x) ∧
    (TransactionService.create_vas_transaction sA wA 200 "AIRTIME" "5E6F7A8B" "NEXAF1" []).fst.wallets =
      sA.wallets.map (fun x =>
        if x.id = wA.id then { wA with balance := wA.balance - 200 } else x) :=
  ⟨by decide,
   (c10_frame sA wA 500 none "1A2B3C4D" "5E6F7A8B" "NEXAF1" none [] "AIRTIME"
     (by decide)).1,
   (c10_frame sA wA 200 none "1A2B3C4D" "5E6F7A8B" "NEXAF1" none [] "AIRTIME"
     (by decide)).2⟩
